import Mathlib

/-!
Verification of the action dispatch engine of macOS-use
(`mlx_use/controller/service.py`): the sequence runner `Controller.multi_act`,
the dispatcher `Controller.act`, and the built-in actions `done`,
`input_text`, `click_element` and `open_app`, shallowly embedded in Lean.
External collaborators (the UI element cache, the click and type-into
capabilities, the Cocoa workspace launch and process enumeration) are
parameters of the embedding, so every theorem quantifies over their
behaviour.
-/

/-- Modelled from the spec: the result envelope `ActionResult` of
`mlx_use/agent/views.py` (a file of this repository that is not under
`src/`): an optional human-readable `extracted_content`, an optional
`error` message, an `is_done` completion flag, and the resulting process
id as metadata; the optional fields default to absent and `is_done`
defaults to false. -/
structure ActionResult where
  is_done : Bool := false
  extracted_content : Option String := none
  error : Option String := none
  current_app_pid : Option Int := none
deriving DecidableEq

/-- Python truthiness of an `Optional[str]` value, as evaluated by
`if results[-1].error` in `Controller.multi_act`: `None` and the empty
string are falsy, every other string is truthy. -/
def pyTruthyStr : Option String → Bool
  | none => false
  | some s => s != ""

/-- `Controller.multi_act` (service.py): dispatch each action in order,
appending each result; after each dispatch, break out of the loop when the
most recent result has `is_done`, a truthy `error`, or the current action
was the last one (`i == len(actions) - 1`, i.e. the remaining list is
empty).  The dispatcher `Controller.act` is abstracted as the function
argument `act`. -/
def multi_act {α : Type} (act : α → ActionResult) : List α → List ActionResult
  | [] => []
  | a :: rest =>
    let r := act a
    if r.is_done || pyTruthyStr r.error || rest.isEmpty then [r]
    else r :: multi_act act rest

/-- Instrumented companion of `multi_act`: the same loop, recording the
actions actually handed to the dispatcher instead of the results.  Each
loop iteration of the source dispatches exactly one action and appends
exactly one result, so `multi_act act l = (multi_act_dispatched act l).map act`
(proved below as `multi_act_eq_map_dispatched`). -/
def multi_act_dispatched {α : Type} (act : α → ActionResult) : List α → List α
  | [] => []
  | a :: rest =>
    let r := act a
    if r.is_done || pyTruthyStr r.error || rest.isEmpty then [a]
    else a :: multi_act_dispatched act rest

/-- A result that halts `multi_act` before list exhaustion: `is_done` set,
or an `error` that is truthy in Python (non-null and non-empty). -/
def is_terminal (r : ActionResult) : Bool :=
  r.is_done || pyTruthyStr r.error

/-- The possible shapes of the value returned by
`registry.execute_action` as `Controller.act` distinguishes them with
`isinstance`: a Python `str`, an `ActionResult`, `None`, or any other
value (carrying the text Python would render for it). -/
inductive ExecReturn where
  | str (s : String)
  | res (r : ActionResult)
  | nothing
  | other (descr : String)

/-- `Controller.act` (service.py): scan the dumped request entries in
order; on the first entry whose params are not `None`, call
`registry.execute_action` and normalize its return value — a `str` becomes
`ActionResult(extracted_content=result)`, an `ActionResult` passes through,
`None` becomes `ActionResult()`, anything else raises
`ValueError(f'Invalid action result type: ...')` (the surrounding
`try/except` re-raises unchanged).  If no entry is populated, return
`ActionResult()`.  The request is the ordered entry list produced by
`action.model_dump(exclude_unset=True)`, and the registry call is
abstracted as `execute_action`. -/
def act {β : Type} (execute_action : String → β → ExecReturn) :
    List (String × Option β) → Except String ActionResult
  | [] => Except.ok {}
  | (action_name, params) :: rest =>
    match params with
    | some p =>
      match execute_action action_name p with
      | .str s => Except.ok { extracted_content := some s }
      | .res r => Except.ok r
      | .nothing => Except.ok {}
      | .other d => Except.error ("Invalid action result type: " ++ d)
    | none => act execute_action rest

/-- The built-in `done` action (service.py):
`return ActionResult(extracted_content=text, is_done=True)`. -/
def done (text : String) : ActionResult :=
  { extracted_content := some text, is_done := true }

/-- Outcome of one call to an external capability (`click` / `type_into`):
it returns `True`, returns `False`, raises `ValueError`, or raises some
other exception. -/
inductive CapOutcome where
  | success
  | failure
  | raised_value_error
  | raised (msg : String)
deriving DecidableEq

/-- The console messages `input_text` / `click_element` print; outcomes of
the capability call are reported here and only here. -/
inductive PrintEvent where
  | attempting_input
  | input_success
  | input_failed
  | attempting_click
  | click_success
  | click_failed
  | invalid_index
  | invalid_input_value_error
  | error_occurred (msg : String)
deriving DecidableEq

/-- What one run of `input_text` / `click_element` produces: the returned
`ActionResult`, whether the capability (`type_into` / `click`) was
invoked, and the lines printed to stdout. -/
structure ElementActionOutcome where
  result : ActionResult
  capability_invoked : Bool
  printed : List PrintEvent
deriving DecidableEq

/-- The built-in `click_element` action (service.py): if `index` is a key
of `mac_tree_builder._element_cache`, call the `click` capability and
print its success or failure (exceptions are caught and printed);
otherwise print `'❌ Invalid index.'` and skip the capability.  Every path
falls through to
`return ActionResult(extracted_content=f'clicked element with index {index}')`.
The element cache and the capability are parameters. -/
def click_element {Elem : Type} (element_cache : Int → Option Elem)
    (click : Elem → CapOutcome) (index : Int) : ElementActionOutcome :=
  match element_cache index with
  | some element_to_click =>
    { result := { extracted_content := some ("clicked element with index " ++ toString index) }
      capability_invoked := true
      printed :=
        match click element_to_click with
        | .success => [.attempting_click, .click_success]
        | .failure => [.attempting_click, .click_failed]
        | .raised_value_error => [.attempting_click, .invalid_input_value_error]
        | .raised msg => [.attempting_click, .error_occurred msg] }
  | none =>
    { result := { extracted_content := some ("clicked element with index " ++ toString index) }
      capability_invoked := false
      printed := [.invalid_index] }

/-- The built-in `input_text` action (service.py): same shape as
`click_element` but invoking the `type_into` capability with
`(element, text, submit)`, and falling through to
`return ActionResult(extracted_content=f'input text into element with index {index}')`. -/
def input_text {Elem : Type} (element_cache : Int → Option Elem)
    (type_into : Elem → String → Bool → CapOutcome)
    (index : Int) (text : String) (submit : Bool) : ElementActionOutcome :=
  match element_cache index with
  | some element_to_input_text =>
    { result := { extracted_content := some ("input text into element with index " ++ toString index) }
      capability_invoked := true
      printed :=
        match type_into element_to_input_text text submit with
        | .success => [.attempting_input, .input_success]
        | .failure => [.attempting_input, .input_failed]
        | .raised_value_error => [.attempting_input, .invalid_input_value_error]
        | .raised msg => [.attempting_input, .error_occurred msg] }
  | none =>
    { result := { extracted_content := some ("input text into element with index " ++ toString index) }
      capability_invoked := false
      printed := [.invalid_index] }

/-- One entry of `workspace.runningApplications()`: its bundle identifier
(possibly `None`) and its process identifier. -/
structure RunningApp where
  bundle_identifier : Option String
  process_identifier : Int
deriving DecidableEq

/-- Python substring containment `needle in hay` on character lists: the
needle occurs as a contiguous run (the empty needle is always found). -/
def py_in_list (needle : List Char) : List Char → Bool
  | [] => needle.isEmpty
  | c :: rest => needle.isPrefixOf (c :: rest) || py_in_list needle rest

/-- Python substring containment on strings. -/
def py_in (needle hay : String) : Bool :=
  py_in_list needle.toList hay.toList

/-- The poll loop of `open_app` (service.py): the first running app whose
bundle identifier is truthy and contains `app_name.lower()` (both sides
lower-cased) yields its process identifier; otherwise no pid is found. -/
def find_pid (app_name : String) : List RunningApp → Option Int
  | [] => none
  | app :: rest =>
    if pyTruthyStr app.bundle_identifier
        && py_in app_name.toLower (app.bundle_identifier.getD "").toLower then
      some app.process_identifier
    else
      find_pid app_name rest

/-- The `return` statement of `open_app` that produced an outcome, one
constructor per `return` in the source. -/
inductive OpenAppReturn where
  | both_attempts_failed
  | failed_open_guard
  | pid_not_found
  | opened
deriving DecidableEq

/-- What one run of `open_app` produces: the returned `ActionResult`,
whether the post-launch step (`await asyncio.sleep(1)` followed by the
process-list poll) was performed, and which `return` fired. -/
structure OpenAppOutcome where
  result : ActionResult
  polled : Bool
  ret : OpenAppReturn
deriving DecidableEq

/-- The tail of `open_app` (service.py) after the launch attempts, taking
the current value of the `success` variable: the guard
`if not success: return ActionResult(extracted_content=f'Failed to open app {app_name}')`,
then the sleep and the process poll, returning an error result when no
pid is found and a success result carrying the pid otherwise. -/
def open_app_post (running : List RunningApp) (app_name : String)
    (success : Bool) : OpenAppOutcome :=
  if !success then
    { result := { extracted_content := some ("Failed to open app " ++ app_name) }
      polled := false
      ret := .failed_open_guard }
  else
    match find_pid app_name running with
    | none =>
      let msg := "Could not find running app with name: " ++ app_name
        ++ " in running applications."
      { result := { extracted_content := some msg, error := some msg }
        polled := true
        ret := .pid_not_found }
    | some pid =>
      { result := { extracted_content := some ("We opened the app " ++ app_name)
                    current_app_pid := some pid }
        polled := true
        ret := .opened }

/-- The built-in `open_app` action (service.py): try
`workspace.launchApplication_(app_name)` verbatim; on failure retry with
`app_name.lower()`; if both fail return
`ActionResult(extracted_content=msg, error=msg)` at once.  Otherwise fall
through to `open_app_post` with the final `success` value.  The Cocoa
launch call and the running-application list are parameters. -/
def open_app (launch_application : String → Bool) (running : List RunningApp)
    (app_name : String) : OpenAppOutcome :=
  let success := launch_application app_name
  if success then
    open_app_post running app_name success
  else
    let app_name_lower := app_name.toLower
    let success := launch_application app_name_lower
    if success then
      open_app_post running app_name success
    else
      let msg := "Failed to launch app: " ++ app_name
        ++ " (and lowercased: " ++ app_name_lower ++ ")"
      { result := { extracted_content := some msg, error := some msg }
        polled := false
        ret := .both_attempts_failed }

/-- Unfolding of the `multi_act` loop body: `a || b || c` associates as
`(a || b) || c`, so the break condition is exactly
`is_terminal (f a) || rest.isEmpty`. -/
theorem multi_act_cons {α : Type} (f : α → ActionResult) (a : α) (rest : List α) :
    multi_act f (a :: rest) =
      if is_terminal (f a) || rest.isEmpty then [f a]
      else f a :: multi_act f rest := rfl

/-- Unfolding of the `multi_act_dispatched` loop body. -/
theorem multi_act_dispatched_cons {α : Type} (f : α → ActionResult) (a : α) (rest : List α) :
    multi_act_dispatched f (a :: rest) =
      if is_terminal (f a) || rest.isEmpty then [a]
      else a :: multi_act_dispatched f rest := rfl

/-- Each loop iteration of `multi_act` dispatches exactly one action and
appends exactly one result: the result list is the image under the
dispatcher of the dispatched-action list. -/
theorem multi_act_eq_map_dispatched {α : Type} (f : α → ActionResult) (acts : List α) :
    multi_act f acts = (multi_act_dispatched f acts).map f := by
  induction acts with
  | nil => rfl
  | cons a rest ih =>
    rw [multi_act_cons, multi_act_dispatched_cons]
    by_cases h : (is_terminal (f a) || rest.isEmpty) = true
    · rw [if_pos h, if_pos h]; rfl
    · rw [if_neg h, if_neg h, List.map_cons, ih]

/-- Characterization of the sequence runner: `multi_act` maps the
dispatcher over the prefix of the action list that ends at the first
action whose result is terminal (inclusive), or over the whole list when
no result is terminal. -/
theorem multi_act_take_char {α : Type} (f : α → ActionResult) (acts : List α) :
    multi_act f acts =
      (acts.take (min acts.length (acts.findIdx (fun a => is_terminal (f a)) + 1))).map f := by
  have hm : ∀ x y : Nat, (x + 1) ⊓ (y + 1) = (x ⊓ y) + 1 := fun x y => by omega
  induction acts with
  | nil => rfl
  | cons a rest ih =>
    rw [multi_act_cons]
    by_cases hterm : is_terminal (f a) = true
    · rw [if_pos (by simp [hterm]), List.findIdx_cons, hterm, cond_true]
      have hmin : (a :: rest).length ⊓ (0 + 1) = 1 := by
        simp only [List.length_cons]; omega
      rw [hmin]
      simp
    · have hf : is_terminal (f a) = false := by simpa using hterm
      cases rest with
      | nil =>
        rw [if_pos (by simp)]
        simp [List.findIdx_cons, hf]
      | cons b rest2 =>
        rw [if_neg (by simp [hf])]
        rw [List.findIdx_cons, hf, cond_false, List.length_cons, hm,
          List.take_succ_cons, List.map_cons, ih]

/-- The sequence runner never produces more results than it was given
actions. -/
theorem multi_act_length_le {α : Type} (f : α → ActionResult) (acts : List α) :
    (multi_act f acts).length ≤ acts.length := by
  induction acts with
  | nil => simp [multi_act]
  | cons a rest ih =>
    rw [multi_act_cons]
    by_cases h : (is_terminal (f a) || rest.isEmpty) = true
    · rw [if_pos h]; simp
    · rw [if_neg h]
      simp only [List.length_cons]
      omega

/-- When no dispatched result is terminal, the sequence runner runs the
list to exhaustion: one result per action. -/
theorem multi_act_length_of_no_terminal {α : Type} (f : α → ActionResult) (acts : List α)
    (h : ∀ a ∈ acts, is_terminal (f a) = false) :
    (multi_act f acts).length = acts.length := by
  induction acts with
  | nil => rfl
  | cons a rest ih =>
    have hf : is_terminal (f a) = false := h a (List.mem_cons_self a rest)
    have ihh := ih (fun x hx => h x (List.mem_cons_of_mem _ hx))
    cases rest with
    | nil => rw [multi_act_cons, if_pos (by simp)]; rfl
    | cons b rest2 =>
      rw [multi_act_cons, if_neg (by simp [hf])]
      simp only [List.length_cons]
      rw [ihh]
      simp

/-- `Controller.act` ignores a prefix of request entries whose params are
all `None`: dispatch is decided by the first populated entry. -/
theorem act_append_none {β : Type} (execute_action : String → β → ExecReturn)
    (pre tail : List (String × Option β)) (hpre : ∀ e ∈ pre, e.2 = none) :
    act execute_action (pre ++ tail) = act execute_action tail := by
  induction pre with
  | nil => rfl
  | cons e pre ih =>
    obtain ⟨n, op⟩ := e
    have h2 : op = none := hpre (n, op) (List.mem_cons_self _ _)
    subst h2
    show act execute_action ((n, none) :: (pre ++ tail)) = act execute_action tail
    rw [show act execute_action ((n, none) :: (pre ++ tail)) =
        act execute_action (pre ++ tail) from rfl]
    exact ih (fun x hx => hpre x (List.mem_cons_of_mem _ hx))

/-- Unfolding of `open_app`: verbatim attempt, lowercased retry, then
either the immediate both-failed return or the post-launch tail with the
current `success` value. -/
theorem open_app_eq (launch_application : String → Bool) (running : List RunningApp)
    (app_name : String) :
    open_app launch_application running app_name =
      (if launch_application app_name then
        open_app_post running app_name (launch_application app_name)
      else if launch_application app_name.toLower then
        open_app_post running app_name (launch_application app_name.toLower)
      else
        { result := { extracted_content := some ("Failed to launch app: " ++ app_name
                        ++ " (and lowercased: " ++ app_name.toLower ++ ")")
                      error := some ("Failed to launch app: " ++ app_name
                        ++ " (and lowercased: " ++ app_name.toLower ++ ")") }
          polled := false
          ret := .both_attempts_failed }) := rfl

/-- When the post-launch tail of `open_app` runs with `success = true`,
the `if not success` guard is skipped: the sleep-and-poll step happens and
the outcome is one of the two poll returns. -/
theorem open_app_post_true (running : List RunningApp) (app_name : String) :
    (open_app_post running app_name true).ret ≠ OpenAppReturn.failed_open_guard ∧
    (open_app_post running app_name true).polled = true := by
  unfold open_app_post
  cases find_pid app_name running <;> simp

/-- Claim C1, counterexample: an `ActionResult` whose `error` is the empty
string is non-null yet falsy in Python, so `multi_act` does not stop at
it: a two-action sequence whose first result carries `error = Some ""`
dispatches both actions and returns two results, where the claim requires
exactly one. -/
theorem multi_act_empty_error_continues :
    ({ error := some "" } : ActionResult).error ≠ none ∧
    ({ error := some "" } : ActionResult).is_done = false ∧
    (multi_act (fun _ : Nat => { error := some "" }) [0, 1]).length = 2 ∧
    multi_act_dispatched (fun _ : Nat => { error := some "" }) [0, 1] = [0, 1] := by
  decide

/-- Claim C1, amended: `multi_act` dispatches the requests in order and
stops as soon as the most recent result has `is_done = true` or an error
that is non-null AND non-empty (Python truthiness of `results[-1].error`),
or the list is exhausted: the result list is the dispatcher mapped over
the prefix ending at the first terminal result.  In particular, for
`[A, B, C]` where A's result has `is_done = true`, only A is dispatched
and the result list is exactly `[f A]`. -/
theorem multi_act_halts_on_done_or_nonempty_error {α : Type} (f : α → ActionResult) :
    (∀ acts : List α,
      multi_act f acts =
        (acts.take (min acts.length (acts.findIdx (fun a => is_terminal (f a)) + 1))).map f) ∧
    (∀ A B C : α, (f A).is_done = true →
      multi_act f [A, B, C] = [f A] ∧ multi_act_dispatched f [A, B, C] = [A]) := by
  refine ⟨fun acts => multi_act_take_char f acts, fun A B C hA => ⟨?_, ?_⟩⟩
  · rw [multi_act_cons, if_pos (by simp [is_terminal, hA])]
  · rw [multi_act_dispatched_cons, if_pos (by simp [is_terminal, hA])]

/-- Claim C1, witness: a concrete three-action sequence whose first result
is `done` dispatches only the first action and returns one result. -/
theorem multi_act_halts_witness :
    multi_act (fun _ : Nat => done "t") [0, 1, 2] = [done "t"] ∧
    multi_act_dispatched (fun _ : Nat => done "t") [0, 1, 2] = [0] :=
  (multi_act_halts_on_done_or_nonempty_error (fun _ : Nat => done "t")).2 0 1 2 rfl

/-- Claim C10: `multi_act` on the empty request list returns the empty
result list and dispatches nothing, and for every request list the result
list is at most as long as the input. -/
theorem multi_act_nil_and_length_bound {α : Type} (f : α → ActionResult) :
    multi_act f ([] : List α) = [] ∧
    multi_act_dispatched f ([] : List α) = [] ∧
    (∀ acts : List α, (multi_act f acts).length ≤ acts.length) :=
  ⟨rfl, rfl, fun acts => multi_act_length_le f acts⟩

/-- Claim C8: every result of `click_element` or `input_text` has `error`
unset and `is_done` false — for any cache, any capability behaviour
(success, failure or exception) and any index — and consequently a
sequence of requests all of whose results have `error = none` and
`is_done = false` runs to exhaustion under `multi_act`. -/
theorem element_actions_never_terminal {Elem : Type}
    (element_cache : Int → Option Elem) (click : Elem → CapOutcome)
    (type_into : Elem → String → Bool → CapOutcome)
    (index : Int) (text : String) (submit : Bool) :
    ((click_element element_cache click index).result.error = none ∧
     (click_element element_cache click index).result.is_done = false) ∧
    ((input_text element_cache type_into index text submit).result.error = none ∧
     (input_text element_cache type_into index text submit).result.is_done = false) ∧
    (∀ (α : Type) (f : α → ActionResult) (acts : List α),
      (∀ a ∈ acts, (f a).error = none ∧ (f a).is_done = false) →
      (multi_act f acts).length = acts.length) := by
  refine ⟨?_, ?_, ?_⟩
  · cases hc : element_cache index <;> simp [click_element, hc]
  · cases hc : element_cache index <;> simp [input_text, hc]
  · intro α f acts h
    refine multi_act_length_of_no_terminal f acts (fun a ha => ?_)
    have := h a ha
    simp [is_terminal, this.1, this.2, pyTruthyStr]

/-- Claim C8, witness: concrete calls of `click_element` and `input_text`
have `error = none` and `is_done = false`, and a concrete two-action
sequence of non-terminal results returns two results. -/
theorem element_actions_never_terminal_witness :
    (click_element (fun _ : Int => (none : Option Unit))
        (fun _ => CapOutcome.success) 0).result.error = none ∧
    (multi_act (fun _ : Nat => ({} : ActionResult)) [0, 1]).length = 2 :=
  ⟨(element_actions_never_terminal (fun _ : Int => (none : Option Unit))
      (fun _ => CapOutcome.success) (fun _ _ _ => CapOutcome.success) 0 "" false).1.1,
   (element_actions_never_terminal (fun _ : Int => (none : Option Unit))
      (fun _ => CapOutcome.success) (fun _ _ _ => CapOutcome.success) 0 "" false).2.2
     Nat (fun _ => ({} : ActionResult)) [0, 1] (by decide)⟩

/-- Claim C2, counterexample: with index 0 present in the cache,
`click_element` returns the identical `ActionResult` whether the click
capability succeeds or fails — so `extracted_content` does not report the
capability's success or failure; and the `extracted_content` produced for
the absent index 7 is the very phrase produced when 7 is present, so it
does not indicate that the index is invalid. -/
theorem click_element_content_ignores_outcome :
    (click_element (fun i : Int => if i = 0 then some () else none)
        (fun _ => CapOutcome.success) 0).result =
      (click_element (fun i : Int => if i = 0 then some () else none)
        (fun _ => CapOutcome.failure) 0).result ∧
    (click_element (fun i : Int => if i = 0 then some () else none)
        (fun _ => CapOutcome.success) 7).result.extracted_content =
      some "clicked element with index 7" ∧
    (click_element (fun _ : Int => some ())
        (fun _ => CapOutcome.success) 7).result.extracted_content =
      some "clicked element with index 7" := by
  decide

/-- Claim C2, amended: for an index absent from the element cache,
`click_element` and `input_text` return an `ActionResult` without raising,
do not invoke the capability, and print `'❌ Invalid index.'`; their
`extracted_content` is always the fixed phrase
`'clicked element with index {index}'` / `'input text into element with index {index}'`,
which mentions the index but neither marks it invalid nor reports the
capability's success or failure (those go only to stdout); for a present
index the capability is invoked. -/
theorem element_actions_fixed_content {Elem : Type}
    (element_cache : Int → Option Elem) (click : Elem → CapOutcome)
    (type_into : Elem → String → Bool → CapOutcome)
    (index : Int) (text : String) (submit : Bool) :
    ((click_element element_cache click index).capability_invoked
        = (element_cache index).isSome) ∧
    ((click_element element_cache click index).result.extracted_content
        = some ("clicked element with index " ++ toString index)) ∧
    ((input_text element_cache type_into index text submit).capability_invoked
        = (element_cache index).isSome) ∧
    ((input_text element_cache type_into index text submit).result.extracted_content
        = some ("input text into element with index " ++ toString index)) ∧
    (element_cache index = none →
      (click_element element_cache click index).printed = [PrintEvent.invalid_index] ∧
      (input_text element_cache type_into index text submit).printed
        = [PrintEvent.invalid_index]) := by
  rcases hc : element_cache index with _ | el <;>
    simp [click_element, input_text, hc]

/-- Claim C2, witness: a concrete absent index returns the fixed phrase,
does not invoke the capability, and prints the invalid-index message. -/
theorem element_actions_fixed_content_witness :
    (click_element (fun _ : Int => (none : Option Unit))
        (fun _ => CapOutcome.success) 3).printed = [PrintEvent.invalid_index] ∧
    (click_element (fun _ : Int => (none : Option Unit))
        (fun _ => CapOutcome.success) 3).capability_invoked = false :=
  ⟨((element_actions_fixed_content (fun _ : Int => (none : Option Unit))
      (fun _ => CapOutcome.success) (fun _ _ _ => CapOutcome.success) 3 "" false).2.2.2.2
      rfl).1,
   (element_actions_fixed_content (fun _ : Int => (none : Option Unit))
      (fun _ => CapOutcome.success) (fun _ _ _ => CapOutcome.success) 3 "" false).1⟩

/-- Claim C3, counterexample: two recoverable, expected-at-runtime
failures — an absent index and a capability call returning failure — are
not encoded in the returned `ActionResult.error`, which stays `none`, so
the Sequence Runner cannot observe them. -/
theorem click_element_failures_error_none :
    (click_element (fun _ : Int => (none : Option Unit))
        (fun _ => CapOutcome.success) 7).result.error = none ∧
    (click_element (fun _ : Int => some ())
        (fun _ => CapOutcome.failure) 0).result.error = none := by
  decide

/-- Claim C3, amended: no recoverable failure raises to the caller (every
action is total and returns an `ActionResult`); `open_app` encodes launch
failure and process-not-found in `error`; but `click_element` and
`input_text` leave `error` unset on every path (bad index, capability
failure, capability exception), reporting those outcomes only on stdout. -/
theorem recoverable_failures_error_encoding {Elem : Type}
    (element_cache : Int → Option Elem) (click : Elem → CapOutcome)
    (type_into : Elem → String → Bool → CapOutcome)
    (index : Int) (text : String) (submit : Bool)
    (launch_application : String → Bool) (running : List RunningApp) (app_name : String) :
    ((click_element element_cache click index).result.error = none) ∧
    ((input_text element_cache type_into index text submit).result.error = none) ∧
    (launch_application app_name = false →
      launch_application app_name.toLower = false →
      (open_app launch_application running app_name).result.error.isSome = true) ∧
    (launch_application app_name = true →
      find_pid app_name running = none →
      (open_app launch_application running app_name).result.error.isSome = true) := by
  refine ⟨?_, ?_, ?_, ?_⟩
  · cases hc : element_cache index <;> simp [click_element, hc]
  · cases hc : element_cache index <;> simp [input_text, hc]
  · intro h1 h2
    rw [open_app_eq, if_neg (by simp [h1]), if_neg (by simp [h2])]
    rfl
  · intro h1 h2
    rw [open_app_eq, if_pos (by simp [h1]), h1]
    unfold open_app_post
    rw [h2]
    simp

/-- Claim C3, witness: concrete instances — a both-attempts-failed launch
and an empty process list after a successful launch both set `error`,
while a concrete bad index leaves `error` unset. -/
theorem recoverable_failures_error_encoding_witness :
    (open_app (fun _ => false) [] "Safari").result.error.isSome = true ∧
    (open_app (fun _ => true) [] "Safari").result.error.isSome = true ∧
    (click_element (fun _ : Int => (none : Option Unit))
        (fun _ => CapOutcome.success) 2).result.error = none :=
  ⟨(recoverable_failures_error_encoding (fun _ : Int => (none : Option Unit))
      (fun _ => CapOutcome.success) (fun _ _ _ => CapOutcome.success) 2 "" false
      (fun _ => false) [] "Safari").2.2.1 rfl rfl,
   (recoverable_failures_error_encoding (fun _ : Int => (none : Option Unit))
      (fun _ => CapOutcome.success) (fun _ _ _ => CapOutcome.success) 2 "" false
      (fun _ => true) [] "Safari").2.2.2 rfl rfl,
   (recoverable_failures_error_encoding (fun _ : Int => (none : Option Unit))
      (fun _ => CapOutcome.success) (fun _ _ _ => CapOutcome.success) 2 "" false
      (fun _ => false) [] "Safari").1⟩

/-- Claim C4: when the verbatim launch attempt and the lower-cased launch
attempt both fail, `open_app` returns an `ActionResult` whose `error` is
set (to the both-attempts-failed message) and never performs the
post-launch delay and process-list poll. -/
theorem open_app_both_fail_no_poll (launch_application : String → Bool)
    (running : List RunningApp) (app_name : String)
    (h1 : launch_application app_name = false)
    (h2 : launch_application app_name.toLower = false) :
    (open_app launch_application running app_name).result.error =
      some ("Failed to launch app: " ++ app_name
        ++ " (and lowercased: " ++ app_name.toLower ++ ")") ∧
    (open_app launch_application running app_name).polled = false ∧
    (open_app launch_application running app_name).ret
      = OpenAppReturn.both_attempts_failed := by
  rw [open_app_eq, if_neg (by simp [h1]), if_neg (by simp [h2])]
  exact ⟨rfl, rfl, rfl⟩

/-- Claim C4, witness: a launcher that always fails makes
`open_app "Safari"` return with `error` set and without polling. -/
theorem open_app_both_fail_no_poll_witness :
    (open_app (fun _ => false) [] "Safari").result.error.isSome = true ∧
    (open_app (fun _ => false) [] "Safari").polled = false := by
  obtain ⟨he, hp, _⟩ := open_app_both_fail_no_poll (fun _ => false) [] "Safari" rfl rfl
  exact ⟨by rw [he]; rfl, hp⟩

/-- Claim C9: the `if not success` guard after the two launch attempts of
`open_app` is dead code: on every input its `return` never fires, because
the both-attempts-failed path has already returned and every other path
reaches the guard with `success = true`. -/
theorem open_app_failed_guard_unreachable (launch_application : String → Bool)
    (running : List RunningApp) (app_name : String) :
    (open_app launch_application running app_name).ret
      ≠ OpenAppReturn.failed_open_guard := by
  rw [open_app_eq]
  by_cases h1 : launch_application app_name = true
  · rw [if_pos (by simp [h1]), h1]
    exact (open_app_post_true running app_name).1
  · rw [if_neg h1]
    by_cases h2 : launch_application app_name.toLower = true
    · rw [if_pos (by simp [h2]), h2]
      exact (open_app_post_true running app_name).1
    · rw [if_neg h2]
      simp

/-- Claim C5: `Controller.act` normalizes the registry's return value for
the first populated entry of the request: a raw string becomes an
`ActionResult` carrying it as `extracted_content`, an `ActionResult`
passes through unchanged, `None` becomes an empty `ActionResult`, and any
other return shape raises `ValueError('Invalid action result type: ...')`. -/
theorem act_normalizes_returns {β : Type} (execute_action : String → β → ExecReturn)
    (pre : List (String × Option β)) (action_name : String) (p : β)
    (rest : List (String × Option β)) (hpre : ∀ e ∈ pre, e.2 = none) :
    (∀ s, execute_action action_name p = ExecReturn.str s →
      act execute_action (pre ++ (action_name, some p) :: rest) =
        Except.ok { extracted_content := some s }) ∧
    (∀ r, execute_action action_name p = ExecReturn.res r →
      act execute_action (pre ++ (action_name, some p) :: rest) = Except.ok r) ∧
    (execute_action action_name p = ExecReturn.nothing →
      act execute_action (pre ++ (action_name, some p) :: rest) = Except.ok {}) ∧
    (∀ d, execute_action action_name p = ExecReturn.other d →
      act execute_action (pre ++ (action_name, some p) :: rest) =
        Except.error ("Invalid action result type: " ++ d)) := by
  rw [act_append_none execute_action pre _ hpre]
  refine ⟨fun s hs => ?_, fun r hr => ?_, fun hn => ?_, fun d hd => ?_⟩
  · simp [act, hs]
  · simp [act, hr]
  · simp [act, hn]
  · simp [act, hd]

/-- Claim C5, witness: a dispatcher call whose registry returns the raw
string `"hi"` for the first populated entry yields
`ActionResult(extracted_content="hi")`, skipping the unpopulated entry
before it. -/
theorem act_normalizes_returns_witness :
    act (fun n (_ : Nat) => if n = "b" then ExecReturn.str "hi" else ExecReturn.nothing)
      [("a", none), ("b", some 0)] = Except.ok { extracted_content := some "hi" } :=
  (act_normalizes_returns
      (fun n (_ : Nat) => if n = "b" then ExecReturn.str "hi" else ExecReturn.nothing)
      [("a", none)] "b" 0 [] (by simp)).1 "hi" rfl

/-- Claim C6: a request with zero populated entries (every entry absent or
`None`) makes `Controller.act` return an empty `ActionResult` — in
particular one with `error` unset — rather than raising or reporting an
error. -/
theorem act_no_populated_entries_empty {β : Type}
    (execute_action : String → β → ExecReturn)
    (request : List (String × Option β)) (h : ∀ e ∈ request, e.2 = none) :
    act execute_action request = Except.ok {} ∧
    ({} : ActionResult).error = none ∧ ({} : ActionResult).is_done = false := by
  refine ⟨?_, rfl, rfl⟩
  have := act_append_none execute_action request [] h
  simpa using this

/-- Claim C6, witness: a concrete two-entry request, both entries `None`,
dispatches to the empty non-error `ActionResult`. -/
theorem act_no_populated_entries_empty_witness :
    act (fun _ (_ : Nat) => ExecReturn.nothing) [("done", none), ("click_element", none)]
      = Except.ok {} :=
  (act_no_populated_entries_empty (fun _ (_ : Nat) => ExecReturn.nothing)
    [("done", none), ("click_element", none)] (by simp)).1

/-- Claim C7: `done text` always succeeds and returns exactly
`ActionResult(extracted_content=text, is_done=True)` with no error and no
pid; dispatched through `Controller.act`, a request whose populated entry
resolves to `done` yields that result unchanged. -/
theorem done_result_and_dispatch (text : String) :
    done text = { extracted_content := some text, is_done := true,
                  error := none, current_app_pid := none } ∧
    (∀ (β : Type) (p : β),
      act (fun _ _ => ExecReturn.res (done text)) [("done", some p)]
        = Except.ok (done text)) :=
  ⟨rfl, fun _ _ => rfl⟩

example : (open_app (fun _ => true) [⟨none, 7⟩] "Safari").polled = true := by rfl
example : (open_app (fun _ => true) [] "Safari").ret = .pid_not_found := by rfl
